import Mathlib

/-!
Verification of `photinia/widgets.py`.

The file shallowly embeds the pure, decidable parts of the widget layer:
the constructor-time shape arithmetic of `Conv2D`, `GroupConv2D` and
`Pool2D`, the `Widget` build lifecycle (name validation, the process-wide
instance registry, the built flag), parameter get/set bookkeeping, and the
GRU/LSTM step equations (over rationals, with the sigmoid and the optional
activation kept abstract).  Tensor values delegated to the framework are
modelled as rationals or vectors of rationals; graph-side effects that the
Python code performs (creating variables in `_build`) are recorded as flags
on the widget state.
-/

instance {ε α : Type} [DecidableEq ε] [DecidableEq α] : DecidableEq (Except ε α) :=
  fun a b =>
    match a, b with
    | .ok x, .ok y =>
      if h : x = y then .isTrue (by rw [h]) else .isFalse (fun c => h (Except.ok.inj c))
    | .error x, .error y =>
      if h : x = y then .isTrue (by rw [h]) else .isFalse (fun c => h (Except.error.inj c))
    | .ok _, .error _ => .isFalse (fun c => Except.noConfusion c)
    | .error _, .ok _ => .isFalse (fun c => Except.noConfusion c)

/-- Model of Python `math.ceil(a / b)` on integers (`/` in the source is
true division, so this is the ceiling of the exact rational quotient),
computed with integer arithmetic so that it evaluates; `pyCeilDiv_eq_ceil`
proves it equal to the rational ceiling. -/
def pyCeilDiv (a b : Int) : Int :=
  if 0 ≤ b then -((-a) / b) else -(a / (-b))

lemma ceilQ_int_div (n d : Int) (hd : 0 < d) :
    ⌈(n : ℚ) / (d : ℚ)⌉ = -((-n) / d) := by
  have hdn : ((d.toNat : ℕ) : ℤ) = d := Int.toNat_of_nonneg hd.le
  have h := Rat.floor_intCast_div_natCast (-n) d.toNat
  have hcast : ((d.toNat : ℕ) : ℚ) = (d : ℚ) := by exact_mod_cast hdn
  rw [hcast, hdn] at h
  have hneg : (((-n : ℤ)) : ℚ) / (d : ℚ) = -((n : ℚ) / (d : ℚ)) := by push_cast; ring
  rw [hneg, Int.floor_neg] at h
  omega

lemma pyCeilDiv_eq_ceil (a b : Int) (hb : b ≠ 0) :
    pyCeilDiv a b = ⌈(a : ℚ) / (b : ℚ)⌉ := by
  unfold pyCeilDiv
  rcases lt_or_gt_of_ne hb with hneg | hpos
  · rw [if_neg (by omega)]
    have h := ceilQ_int_div (-a) (-b) (by omega)
    have hq : (((-a : ℤ)) : ℚ) / (((-b : ℤ)) : ℚ) = (a : ℚ) / (b : ℚ) := by
      push_cast; rw [neg_div_neg_eq]
    rw [hq] at h
    simp only [neg_neg] at h
    omega
  · rw [if_pos hpos.le]
    exact (ceilQ_int_div a b hpos).symm

/-- State recorded by `Conv2D.__init__` (also used for `GroupConv2D`,
which performs the identical shape computation). -/
structure Conv2DState where
  inputHeight : Int
  inputWidth : Int
  inputChannels : Int
  outputChannels : Int
  filterHeight : Int
  filterWidth : Int
  strideHeight : Int
  strideWidth : Int
  padding : String
  outputHeight : Int
  outputWidth : Int
  flatSize : Int
deriving DecidableEq

/-- Embedding of `Conv2D.__init__` up to the `super().__init__` call:
validates `input_size`, then computes the output geometry.  Division by a
zero stride raises `ZeroDivisionError` in Python; the guard models that. -/
def conv2DInit (inputSize : List Int) (outputChannels : Int)
    (filterHeight filterWidth strideHeight strideWidth : Int)
    (padding : String) : Except String Conv2DState :=
  if h : inputSize.length = 3 then
    let ih := inputSize.get ⟨0, by omega⟩
    let iw := inputSize.get ⟨1, by omega⟩
    let ic := inputSize.get ⟨2, by omega⟩
    if strideHeight = 0 ∨ strideWidth = 0 then .error "ZeroDivisionError"
    else
      let oh := if padding = "SAME" then pyCeilDiv ih strideHeight
                else pyCeilDiv (ih - filterHeight + 1) strideHeight
      let ow := if padding = "SAME" then pyCeilDiv iw strideWidth
                else pyCeilDiv (iw - filterWidth + 1) strideWidth
      .ok { inputHeight := ih, inputWidth := iw, inputChannels := ic,
            outputChannels := outputChannels,
            filterHeight := filterHeight, filterWidth := filterWidth,
            strideHeight := strideHeight, strideWidth := strideWidth,
            padding := padding,
            outputHeight := oh, outputWidth := ow,
            flatSize := oh * ow * outputChannels }
  else .error "input_size should be tuple or list with 3 elements."

/-- Embedding of `GroupConv2D.__init__` up to `super().__init__`: same
validation and shape formulas as `Conv2D`, with the extra `num_groups`
and `data_format` configuration stored alongside. -/
def groupConv2DInit (inputSize : List Int) (outputChannels numGroups : Int)
    (filterHeight filterWidth strideHeight strideWidth : Int)
    (padding dataFormat : String) : Except String (Conv2DState × Int × String) :=
  if h : inputSize.length = 3 then
    let ih := inputSize.get ⟨0, by omega⟩
    let iw := inputSize.get ⟨1, by omega⟩
    let ic := inputSize.get ⟨2, by omega⟩
    if strideHeight = 0 ∨ strideWidth = 0 then .error "ZeroDivisionError"
    else
      let oh := if padding = "SAME" then pyCeilDiv ih strideHeight
                else pyCeilDiv (ih - filterHeight + 1) strideHeight
      let ow := if padding = "SAME" then pyCeilDiv iw strideWidth
                else pyCeilDiv (iw - filterWidth + 1) strideWidth
      .ok ({ inputHeight := ih, inputWidth := iw, inputChannels := ic,
             outputChannels := outputChannels,
             filterHeight := filterHeight, filterWidth := filterWidth,
             strideHeight := strideHeight, strideWidth := strideWidth,
             padding := padding,
             outputHeight := oh, outputWidth := ow,
             flatSize := oh * ow * outputChannels }, numGroups, dataFormat)
  else .error "input_size should be tuple or list with 3 elements."

/-- State recorded by `Pool2D.__init__`. -/
structure Pool2DState where
  inputHeight : Int
  inputWidth : Int
  inputChannels : Int
  filterHeight : Int
  filterWidth : Int
  strideHeight : Int
  strideWidth : Int
  padding : String
  poolType : String
  outputHeight : Int
  outputWidth : Int
  flatSize : Int
deriving DecidableEq

/-- Model of Python `str.lower()` (ASCII case folding). -/
def pyLower (s : String) : String := String.mk (s.toList.map Char.toLower)

/-- Embedding of `Pool2D.__init__` up to `super().__init__`: validates
`pool_type` (after lowercasing) against the set `{"max", "avg"}`, then
indexes `input_size` (an `IndexError` when fewer than 3 elements) and
computes the output geometry.  The `padding` string is stored unchecked. -/
def pool2DInit (inputSize : List Int)
    (filterHeight filterWidth strideHeight strideWidth : Int)
    (padding poolType : String) : Except String Pool2DState :=
  if pyLower poolType ∉ (["max", "avg"] : List String) then
    .error ("pool_type should be one of \x7b\"max\", \"avg\"\x7d, but got " ++ pyLower poolType)
  else if h : 3 ≤ inputSize.length then
    let ih := inputSize.get ⟨0, by omega⟩
    let iw := inputSize.get ⟨1, by omega⟩
    let ic := inputSize.get ⟨2, by omega⟩
    if strideHeight = 0 ∨ strideWidth = 0 then .error "ZeroDivisionError"
    else
      let oh := if padding = "SAME" then pyCeilDiv ih strideHeight
                else pyCeilDiv (ih - filterHeight + 1) strideHeight
      let ow := if padding = "SAME" then pyCeilDiv iw strideWidth
                else pyCeilDiv (iw - filterWidth + 1) strideWidth
      .ok { inputHeight := ih, inputWidth := iw, inputChannels := ic,
            filterHeight := filterHeight, filterWidth := filterWidth,
            strideHeight := strideHeight, strideWidth := strideWidth,
            padding := padding, poolType := pyLower poolType,
            outputHeight := oh, outputWidth := ow,
            flatSize := oh * ow * ic }
  else .error "IndexError"

example : (conv2DInit [5, 7, 3] 8 3 3 2 2 "SAME").isOk = true := by decide
example : (pool2DInit [5, 7, 3] 3 3 2 2 "VALID" "MAX").isOk = true := by decide

/-- Argument value passed as the `name` of `Widget.__init__`: Python `None`,
a string, or a value of any other type. -/
inductive PyArg where
  | noneArg : PyArg
  | strArg : String → PyArg
  | otherArg : PyArg
deriving DecidableEq

/-- Code points of the characters Python's `str.strip()` removes (those
with `str.isspace()` true): the ASCII whitespace U+0009..U+000D and space,
the file/group/record/unit separators U+001C..U+001F, next line U+0085,
no-break space U+00A0, and the Unicode space characters U+1680,
U+2000..U+200A, U+2028, U+2029, U+202F, U+205F and U+3000. -/
def pySpaceCodes : List Nat :=
  [0x09, 0x0A, 0x0B, 0x0C, 0x0D, 0x1C, 0x1D, 0x1E, 0x1F, 0x20, 0x85, 0xA0,
   0x1680, 0x2000, 0x2001, 0x2002, 0x2003, 0x2004, 0x2005, 0x2006, 0x2007,
   0x2008, 0x2009, 0x200A, 0x2028, 0x2029, 0x202F, 0x205F, 0x3000]

/-- Whether `str.strip()` removes the character `c`. -/
def isPySpace (c : Char) : Bool := pySpaceCodes.contains c.toNat

/-- Model of Python `str.strip()` with no argument. -/
def pyStrip (s : String) : String :=
  String.mk (((s.toList.dropWhile isPySpace).reverse.dropWhile isPySpace).reverse)

/-- Embedding of the name validation in `Widget.__init__`: returns the
error message raised, or `none` when the name is accepted. -/
def widgetNameCheck : PyArg → Option String
  | .noneArg => none
  | .otherArg => some "Widget name must be specified with string."
  | .strArg s =>
    if (pyStrip s).length ≠ s.length ∨ s = "" then
      some "Widget name cannot be empty or contain space characters."
    else none

/-- Mutable state of a `Widget` instance relevant to the build lifecycle.
`paramsCreated` records whether `_build` has run (it is where the
trainable variables are created); `pfx` is the `_prefix` attribute. -/
structure WidgetState where
  name : Option String
  scope : String
  fullName : Option String
  pfx : Option String
  built : Bool
  paramsCreated : Bool
deriving DecidableEq

/-- Full-name computation in `Widget.build` from the ambient variable-scope
name and the widget's own name. -/
def fullNameOf (scope n : String) : String :=
  if scope = "" then n
  else if scope.endsWith "/" then scope ++ n
  else scope ++ "/" ++ n

/-- Embedding of `Widget.build`.  The ambient variable-scope name is passed
explicitly (the Python code reads `tf.get_variable_scope().name`); the
process-wide registry `Widget.INSTANCES` is the list of registered full
names.  Returns the raised error (if any) together with the widget state
and the registry after the call; Python attribute mutations performed
before an exception persist, and the model reproduces that order:
`_build` runs and `_built` is set before the registry is consulted. -/
def widgetBuild (ambientScope : String) (w : WidgetState) (reg : List String) :
    Option String × WidgetState × List String :=
  if w.built then (none, w, reg)
  else
    match w.name with
    | none =>
      -- `self._full_name = self._name` keeps `None`; the following string
      -- concatenation with `None` raises a TypeError before `_build` runs.
      (some "TypeError", { w with scope := ambientScope, fullName := none }, reg)
    | some n =>
      let fn := fullNameOf ambientScope n
      let w1 : WidgetState :=
        { w with scope := ambientScope, fullName := some fn, pfx := some (fn ++ "/"),
                 paramsCreated := true, built := true }
      if fn ∈ reg then (some ("Duplicated widget name " ++ fn ++ "."), w1, reg)
      else (none, w1, fn :: reg)

/-- Embedding of the guard in `Widget.setup`: the only check the method
itself performs before delegating to `_setup` inside the name scope. -/
def widgetSetup (w : WidgetState) : Except String Unit :=
  if w.built then .ok ()
  else .error "This widget has not been built. Please build first."

/-- Embedding of `Widget.get_variables`: variables are identified by their
names; the graph's global variable list is passed explicitly. -/
def getVariables (w : WidgetState) (globalVars : List String) : List String :=
  match w.name with
  | none => []
  | some _ => globalVars.filter (fun vn => vn.startsWith (w.pfx.getD ""))

/-- Embedding of `Widget.get_trainable_variables`. -/
def getTrainableVariables (w : WidgetState) (trainableVars : List String) : List String :=
  match w.name with
  | none => []
  | some _ => trainableVars.filter (fun vn => vn.startsWith (w.pfx.getD ""))

/-- Loop of `Widget.set_parameters` over the (insertion-ordered) items of
`param_dict`.  An unknown key raises the descriptive `ValueError` when
`strict`, and otherwise reaches `var_dict[name]`, which raises `KeyError`.
Returns the raised error (if any) and the assignments performed so far. -/
def setParametersGo (varNames : List String) (strict : Bool) :
    List (String × ℚ) → List (String × ℚ) → Option String × List (String × ℚ)
  | [], acc => (none, acc.reverse)
  | (n, v) :: rest, acc =>
    if n ∈ varNames then setParametersGo varNames strict rest ((n, v) :: acc)
    else if strict then (some (n ++ " is not in this model."), acc.reverse)
    else (some "KeyError", acc.reverse)

/-- Embedding of `Widget.set_parameters`: `varNames` is the name list of
the widget's trainable variables. -/
def setParameters (varNames : List String) (paramDict : List (String × ℚ))
    (strict : Bool) : Option String × List (String × ℚ) :=
  setParametersGo varNames strict paramDict []

/-- Tensor of shape `(n,)` over the rationals (one row of the batch). -/
def Vec (n : Nat) : Type := Fin n → ℚ

/-- Matrix of shape `(m, n)` over the rationals. -/
def Mat (m n : Nat) : Type := Fin m → Fin n → ℚ

/-- Model of `tf.matmul` applied to one row: `(x W) j = sum_i x i * W i j`. -/
def matVec {m n : Nat} (x : Vec m) (w : Mat m n) : Vec n :=
  fun j => ∑ i, x i * w i j

/-- Elementwise tensor addition. -/
def vAdd {n : Nat} (a b : Vec n) : Vec n := fun i => a i + b i

/-- Elementwise tensor multiplication (`*` on tensors). -/
def vMul {n : Nat} (a b : Vec n) : Vec n := fun i => a i * b i

/-- Elementwise application of a unary function (e.g. `tf.sigmoid`). -/
def vMap {n : Nat} (f : ℚ → ℚ) (a : Vec n) : Vec n := fun i => f (a i)

/-- Model of `1.0 - z` with broadcasting. -/
def oneMinus {n : Nat} (z : Vec n) : Vec n := fun i => 1 - z i

/-- Model of `self._activation(h) if self._activation is not None else h`. -/
def applyActV {n : Nat} (act : Option (ℚ → ℚ)) (v : Vec n) : Vec n :=
  match act with
  | none => v
  | some f => vMap f v

/-- Scalar form of the optional activation. -/
def applyAct (act : Option (ℚ → ℚ)) (x : ℚ) : ℚ :=
  match act with
  | none => x
  | some f => f x

/-- Parameters of a `GRUCell` after `_build` (the bias vectors only exist
when `with_bias`; they are carried unconditionally and ignored otherwise). -/
structure GRUCellParams (inputSize stateSize : Nat) where
  withBias : Bool
  activation : Option (ℚ → ℚ)
  wz : Mat inputSize stateSize
  wr : Mat inputSize stateSize
  wh : Mat inputSize stateSize
  uz : Mat stateSize stateSize
  ur : Mat stateSize stateSize
  uh : Mat stateSize stateSize
  bz : Vec stateSize
  br : Vec stateSize
  bh : Vec stateSize

/-- Embedding of `GRUCell._setup` on one batch row, with `tf.sigmoid`
abstract.  Mirrors the two `with_bias` branches and the final combination
`h = z * h_ + (1.0 - z) * h` of the source. -/
def gruCellSetup {m n : Nat} (sigmoid : ℚ → ℚ) (p : GRUCellParams m n)
    (x : Vec m) (hPrev : Vec n) : Vec n :=
  if p.withBias then
    let z := vMap sigmoid (vAdd (vAdd (matVec x p.wz) (matVec hPrev p.uz)) p.bz)
    let r := vMap sigmoid (vAdd (vAdd (matVec x p.wr) (matVec hPrev p.ur)) p.br)
    let h0 := vAdd (vAdd (matVec x p.wh) (matVec (vMul r hPrev) p.uh)) p.bh
    let h1 := applyActV p.activation h0
    vAdd (vMul z hPrev) (vMul (oneMinus z) h1)
  else
    let z := vMap sigmoid (vAdd (matVec x p.wz) (matVec hPrev p.uz))
    let r := vMap sigmoid (vAdd (matVec x p.wr) (matVec hPrev p.ur))
    let h0 := vAdd (matVec x p.wh) (matVec (vMul r hPrev) p.uh)
    let h1 := applyActV p.activation h0
    vAdd (vMul z hPrev) (vMul (oneMinus z) h1)

/-- Parameters of an `LSTMCell` after `_build`. -/
structure LSTMCellParams (inputSize stateSize : Nat) where
  withBias : Bool
  activation : Option (ℚ → ℚ)
  wi : Mat inputSize stateSize
  wf : Mat inputSize stateSize
  wo : Mat inputSize stateSize
  wc : Mat inputSize stateSize
  ui : Mat stateSize stateSize
  uf : Mat stateSize stateSize
  uo : Mat stateSize stateSize
  uc : Mat stateSize stateSize
  bi : Vec stateSize
  bf : Vec stateSize
  bo : Vec stateSize
  bc : Vec stateSize

/-- Embedding of `LSTMCell._setup` on one batch row: returns the pair
`(cell_state, state)`, reproducing the source's successive reassignments
of `cell_state` (activation of the candidate, gating, activation again). -/
def lstmCellSetup {m n : Nat} (sigmoid : ℚ → ℚ) (p : LSTMCellParams m n)
    (x : Vec m) (prevCellState prevState : Vec n) : Vec n × Vec n :=
  if p.withBias then
    let inputGate := vMap sigmoid (vAdd (vAdd (matVec x p.wi) (matVec prevState p.ui)) p.bi)
    let forgetGate := vMap sigmoid (vAdd (vAdd (matVec x p.wf) (matVec prevState p.uf)) p.bf)
    let outputGate := vMap sigmoid (vAdd (vAdd (matVec x p.wo) (matVec prevState p.uo)) p.bo)
    let cs0 := vAdd (vAdd (matVec x p.wc) (matVec prevState p.uc)) p.bc
    let cs1 := applyActV p.activation cs0
    let cs2 := vAdd (vMul forgetGate prevCellState) (vMul inputGate cs1)
    let cs3 := applyActV p.activation cs2
    (cs3, vMul outputGate cs3)
  else
    let inputGate := vMap sigmoid (vAdd (matVec x p.wi) (matVec prevState p.ui))
    let forgetGate := vMap sigmoid (vAdd (matVec x p.wf) (matVec prevState p.uf))
    let outputGate := vMap sigmoid (vAdd (matVec x p.wo) (matVec prevState p.uo))
    let cs0 := vAdd (matVec x p.wc) (matVec prevState p.uc)
    let cs1 := applyActV p.activation cs0
    let cs2 := vAdd (vMul forgetGate prevCellState) (vMul inputGate cs1)
    let cs3 := applyActV p.activation cs2
    (cs3, vMul outputGate cs3)

/-- Scaling of a list-shaped tensor by a scalar. -/
def scaleL (c : ℚ) (v : List ℚ) : List ℚ := v.map (fun a => c * a)

/-- Elementwise addition of list-shaped tensors. -/
def addL (a b : List ℚ) : List ℚ := List.zipWith (fun x y => x + y) a b

/-- Matrix product of a row vector with a matrix given as a row list. -/
def matVecL (x : List ℚ) (w : List (List ℚ)) : List ℚ :=
  match List.zipWith scaleL x w with
  | [] => []
  | r :: rs => rs.foldl addL r

/-- Embedding of `Gate._setup`: `wList` is `self._w_list` (one weight
matrix per declared input size), `xList` the inputs of the call.  The
length check is the source's `if len(x_list) != len(self._w_list)`;
with no inputs at all, `y` stays `None` and `y += self._b` raises. -/
def gateSetup (wList : List (List (List ℚ))) (b : List ℚ)
    (xList : List (List ℚ)) (sigmoid : ℚ → ℚ) : Except String (List ℚ) :=
  if xList.length ≠ wList.length then .error "ValueError"
  else
    match List.zipWith matVecL xList wList with
    | [] => .error "TypeError"
    | y0 :: rest => .ok ((addL (rest.foldl addL y0) b).map sigmoid)

/-- Embedding of the argument handling of `GRUCell.setup_recursive` before
the delegation to `tf.scan`: the explicit `ValueError` when both initial
tensors are `None`, and the zero-tensor defaults otherwise (batch
dimension omitted). -/
def gruSetupRecursive (stateSize inputSize : Nat)
    (initState initInput : Option (List ℚ)) :
    Except String (List ℚ × List ℚ) :=
  match initState, initInput with
  | none, none => .error "init_state and init_input should not be None at the same time."
  | none, some ii => .ok (List.replicate stateSize 0, ii)
  | some s, none => .ok (s, List.replicate inputSize 0)
  | some s, some ii => .ok (s, ii)

/-- Embedding of the argument handling of `LSTMCell.setup_recursive`: the
same explicit `ValueError`, after which `tf.shape(init_input)` is taken
unconditionally, so a `None` `init_input` (with `init_state` given)
raises a framework `TypeError`. -/
def lstmSetupRecursive (stateSize : Nat)
    (initCellState initState initInput : Option (List ℚ)) :
    Except String (List ℚ × List ℚ × List ℚ) :=
  match initState, initInput with
  | none, none => .error "init_state and init_input should not be None at the same time."
  | _, none => .error "TypeError"
  | none, some ii => .ok (initCellState.getD (List.replicate stateSize 0),
                          List.replicate stateSize 0, ii)
  | some s, some ii => .ok (initCellState.getD (List.replicate stateSize 0), s, ii)


lemma conv2D_shape_spec (is : List Int) (oc fh fw sh sw : Int) (pad : String)
    (st : Conv2DState) (h : conv2DInit is oc fh fw sh sw pad = .ok st) :
    (pad = "SAME" →
      st.outputHeight = ⌈(st.inputHeight : ℚ) / (st.strideHeight : ℚ)⌉ ∧
      st.outputWidth = ⌈(st.inputWidth : ℚ) / (st.strideWidth : ℚ)⌉) ∧
    (pad ≠ "SAME" →
      st.outputHeight = ⌈((st.inputHeight - st.filterHeight + 1 : Int) : ℚ) / (st.strideHeight : ℚ)⌉ ∧
      st.outputWidth = ⌈((st.inputWidth - st.filterWidth + 1 : Int) : ℚ) / (st.strideWidth : ℚ)⌉) := by
  unfold conv2DInit at h
  repeat' split at h
  all_goals
    first
    | (rw [Except.ok.injEq] at h; subst h;
       refine ⟨fun hp => ?_, fun hp => ?_⟩ <;> simp_all [pyCeilDiv_eq_ceil])
    | simp at h

lemma groupConv2D_shape_spec (is : List Int) (oc ng fh fw sh sw : Int) (pad df : String)
    (st : Conv2DState × Int × String)
    (h : groupConv2DInit is oc ng fh fw sh sw pad df = .ok st) :
    (pad = "SAME" →
      st.1.outputHeight = ⌈(st.1.inputHeight : ℚ) / (st.1.strideHeight : ℚ)⌉ ∧
      st.1.outputWidth = ⌈(st.1.inputWidth : ℚ) / (st.1.strideWidth : ℚ)⌉) ∧
    (pad ≠ "SAME" →
      st.1.outputHeight = ⌈((st.1.inputHeight - st.1.filterHeight + 1 : Int) : ℚ) / (st.1.strideHeight : ℚ)⌉ ∧
      st.1.outputWidth = ⌈((st.1.inputWidth - st.1.filterWidth + 1 : Int) : ℚ) / (st.1.strideWidth : ℚ)⌉) := by
  unfold groupConv2DInit at h
  repeat' split at h
  all_goals
    first
    | (rw [Except.ok.injEq] at h; subst h;
       refine ⟨fun hp => ?_, fun hp => ?_⟩ <;> simp_all [pyCeilDiv_eq_ceil])
    | simp at h

lemma pool2D_shape_spec (is : List Int) (fh fw sh sw : Int) (pad pt : String)
    (st : Pool2DState) (h : pool2DInit is fh fw sh sw pad pt = .ok st) :
    (pad = "SAME" →
      st.outputHeight = ⌈(st.inputHeight : ℚ) / (st.strideHeight : ℚ)⌉ ∧
      st.outputWidth = ⌈(st.inputWidth : ℚ) / (st.strideWidth : ℚ)⌉) ∧
    (pad ≠ "SAME" →
      st.outputHeight = ⌈((st.inputHeight - st.filterHeight + 1 : Int) : ℚ) / (st.strideHeight : ℚ)⌉ ∧
      st.outputWidth = ⌈((st.inputWidth - st.filterWidth + 1 : Int) : ℚ) / (st.strideWidth : ℚ)⌉) := by
  unfold pool2DInit at h
  repeat' split at h
  all_goals
    first
    | (rw [Except.ok.injEq] at h; subst h;
       refine ⟨fun hp => ?_, fun hp => ?_⟩ <;> simp_all [pyCeilDiv_eq_ceil])
    | simp at h

/-- Claim C1: for every `Conv2D`, `GroupConv2D` and `Pool2D` constructed
with `padding = "SAME"`, the output height and width computed at
construction time equal `ceil(input_height / stride_height)` and
`ceil(input_width / stride_width)`; for every other padding value they
equal `ceil((input_height - filter_height + 1) / stride_height)` and
`ceil((input_width - filter_width + 1) / stride_width)`. -/
theorem conv_pool_output_shapes :
    (∀ (is : List Int) (oc fh fw sh sw : Int) (pad : String) (st : Conv2DState),
      conv2DInit is oc fh fw sh sw pad = .ok st →
      (pad = "SAME" →
        st.outputHeight = ⌈(st.inputHeight : ℚ) / (st.strideHeight : ℚ)⌉ ∧
        st.outputWidth = ⌈(st.inputWidth : ℚ) / (st.strideWidth : ℚ)⌉) ∧
      (pad ≠ "SAME" →
        st.outputHeight = ⌈((st.inputHeight - st.filterHeight + 1 : Int) : ℚ) / (st.strideHeight : ℚ)⌉ ∧
        st.outputWidth = ⌈((st.inputWidth - st.filterWidth + 1 : Int) : ℚ) / (st.strideWidth : ℚ)⌉)) ∧
    (∀ (is : List Int) (oc ng fh fw sh sw : Int) (pad df : String)
        (st : Conv2DState × Int × String),
      groupConv2DInit is oc ng fh fw sh sw pad df = .ok st →
      (pad = "SAME" →
        st.1.outputHeight = ⌈(st.1.inputHeight : ℚ) / (st.1.strideHeight : ℚ)⌉ ∧
        st.1.outputWidth = ⌈(st.1.inputWidth : ℚ) / (st.1.strideWidth : ℚ)⌉) ∧
      (pad ≠ "SAME" →
        st.1.outputHeight = ⌈((st.1.inputHeight - st.1.filterHeight + 1 : Int) : ℚ) / (st.1.strideHeight : ℚ)⌉ ∧
        st.1.outputWidth = ⌈((st.1.inputWidth - st.1.filterWidth + 1 : Int) : ℚ) / (st.1.strideWidth : ℚ)⌉)) ∧
    (∀ (is : List Int) (fh fw sh sw : Int) (pad pt : String) (st : Pool2DState),
      pool2DInit is fh fw sh sw pad pt = .ok st →
      (pad = "SAME" →
        st.outputHeight = ⌈(st.inputHeight : ℚ) / (st.strideHeight : ℚ)⌉ ∧
        st.outputWidth = ⌈(st.inputWidth : ℚ) / (st.strideWidth : ℚ)⌉) ∧
      (pad ≠ "SAME" →
        st.outputHeight = ⌈((st.inputHeight - st.filterHeight + 1 : Int) : ℚ) / (st.strideHeight : ℚ)⌉ ∧
        st.outputWidth = ⌈((st.inputWidth - st.filterWidth + 1 : Int) : ℚ) / (st.strideWidth : ℚ)⌉)) :=
  ⟨fun is oc fh fw sh sw pad st h => conv2D_shape_spec is oc fh fw sh sw pad st h,
   fun is oc ng fh fw sh sw pad df st h => groupConv2D_shape_spec is oc ng fh fw sh sw pad df st h,
   fun is fh fw sh sw pad pt st h => pool2D_shape_spec is fh fw sh sw pad pt st h⟩

/-- Witness record: the `Conv2D` state built from `input_size = (5, 7, 3)`
with 3x3 filters, stride 2 and SAME padding. -/
def convStEx : Conv2DState :=
  { inputHeight := 5, inputWidth := 7, inputChannels := 3, outputChannels := 8,
    filterHeight := 3, filterWidth := 3, strideHeight := 2, strideWidth := 2,
    padding := "SAME", outputHeight := 3, outputWidth := 4, flatSize := 96 }

/-- Witness record: the `Pool2D` state built from `input_size = (5, 7, 3)`
with 3x3 filters, stride 2 and VALID padding. -/
def poolStEx : Pool2DState :=
  { inputHeight := 5, inputWidth := 7, inputChannels := 3,
    filterHeight := 3, filterWidth := 3, strideHeight := 2, strideWidth := 2,
    padding := "VALID", poolType := "max", outputHeight := 2, outputWidth := 3,
    flatSize := 18 }

theorem conv_pool_output_shapes_witness :
    conv2DInit [5, 7, 3] 8 3 3 2 2 "SAME" = .ok convStEx ∧
    (convStEx.outputHeight = ⌈(convStEx.inputHeight : ℚ) / (convStEx.strideHeight : ℚ)⌉ ∧
     convStEx.outputWidth = ⌈(convStEx.inputWidth : ℚ) / (convStEx.strideWidth : ℚ)⌉) ∧
    groupConv2DInit [5, 7, 3] 8 2 3 3 2 2 "SAME" "NHWC" = .ok (convStEx, 2, "NHWC") ∧
    pool2DInit [5, 7, 3] 3 3 2 2 "VALID" "max" = .ok poolStEx ∧
    (poolStEx.outputHeight =
       ⌈((poolStEx.inputHeight - poolStEx.filterHeight + 1 : Int) : ℚ) / (poolStEx.strideHeight : ℚ)⌉ ∧
     poolStEx.outputWidth =
       ⌈((poolStEx.inputWidth - poolStEx.filterWidth + 1 : Int) : ℚ) / (poolStEx.strideWidth : ℚ)⌉) := by
  have h1 : conv2DInit [5, 7, 3] 8 3 3 2 2 "SAME" = .ok convStEx := by decide
  have h2 : groupConv2DInit [5, 7, 3] 8 2 3 3 2 2 "SAME" "NHWC" = .ok (convStEx, 2, "NHWC") := by decide
  have h3 : pool2DInit [5, 7, 3] 3 3 2 2 "VALID" "max" = .ok poolStEx := by decide
  refine ⟨h1, ?_, h2, h3, ?_⟩
  · exact (conv_pool_output_shapes.1 _ _ _ _ _ _ _ _ h1).1 rfl
  · exact (conv_pool_output_shapes.2.2 _ _ _ _ _ _ _ _ h3).2 (by decide)

/-- Claim C2: for every widget with a non-`None` name, `Widget.build`
raises an error if and only if the widget's fully-qualified name (the
enclosing scope joined with its name) is already present in the
process-wide registry of instances; on success the widget is inserted
into that registry under its fully-qualified name. -/
theorem build_duplicate_name_iff (amb : String) (w : WidgetState) (reg : List String)
    (n : String) (hn : w.name = some n) (hb : w.built = false) :
    ((widgetBuild amb w reg).1 ≠ none ↔ fullNameOf amb n ∈ reg) ∧
    (fullNameOf amb n ∉ reg →
      (widgetBuild amb w reg).2.2 = fullNameOf amb n :: reg ∧
      (widgetBuild amb w reg).2.1.fullName = some (fullNameOf amb n)) := by
  by_cases hm : fullNameOf amb n ∈ reg <;>
    simp [widgetBuild, hb, hn, hm]

theorem build_duplicate_name_iff_witness :
    ((widgetBuild "" ⟨some "a", "", none, none, false, false⟩ ["a"]).1 ≠ none ↔
      fullNameOf "" "a" ∈ ["a"]) ∧
    (fullNameOf "" "a" ∉ ["a"] →
      (widgetBuild "" ⟨some "a", "", none, none, false, false⟩ ["a"]).2.2 =
        fullNameOf "" "a" :: ["a"] ∧
      (widgetBuild "" ⟨some "a", "", none, none, false, false⟩ ["a"]).2.1.fullName =
        some (fullNameOf "" "a")) :=
  build_duplicate_name_iff "" ⟨some "a", "", none, none, false, false⟩ ["a"] "a" rfl rfl

/-- Counterexample to claim C3: building the widget named `"a"` in the
empty scope while `"a"` is already registered raises the duplicate-name
error, yet the widget comes out marked as built and with its parameters
created — construction has already taken place when the error is raised
(only the registry is left unchanged). -/
theorem build_duplicate_state_cex :
    (widgetBuild "" ⟨some "a", "", none, none, false, false⟩ ["a"]).1 ≠ none ∧
    (widgetBuild "" ⟨some "a", "", none, none, false, false⟩ ["a"]).2.1.built = true ∧
    (widgetBuild "" ⟨some "a", "", none, none, false, false⟩ ["a"]).2.1.paramsCreated = true := by
  decide

/-- Claim C3 (amended): when `Widget.build` raises the duplicate-name
error, the registry is unchanged, but the duplicate widget's parameters
have already been created by `_build` and the widget has already been
marked as built — the error does not undo the construction. -/
theorem build_duplicate_state (amb : String) (w : WidgetState) (reg : List String)
    (n : String) (hn : w.name = some n) (hb : w.built = false)
    (herr : (widgetBuild amb w reg).1 ≠ none) :
    (widgetBuild amb w reg).2.2 = reg ∧
    (widgetBuild amb w reg).2.1.built = true ∧
    (widgetBuild amb w reg).2.1.paramsCreated = true := by
  by_cases hm : fullNameOf amb n ∈ reg <;>
    simp_all [widgetBuild, hb, hn, hm]

theorem build_duplicate_state_witness :
    (widgetBuild "" ⟨some "b", "", none, none, false, false⟩ ["b"]).2.2 = ["b"] ∧
    (widgetBuild "" ⟨some "b", "", none, none, false, false⟩ ["b"]).2.1.built = true ∧
    (widgetBuild "" ⟨some "b", "", none, none, false, false⟩ ["b"]).2.1.paramsCreated = true :=
  build_duplicate_state "" ⟨some "b", "", none, none, false, false⟩ ["b"] "b" rfl rfl
    (by decide)

/-- Claim C4: calling `Widget.build` on an already-built widget is
idempotent — it returns immediately with the widget and the registry
unchanged: no parameters are created, no scope is re-entered and the
process-wide registry is untouched. -/
theorem build_idempotent (amb : String) (w : WidgetState) (reg : List String)
    (hb : w.built = true) : widgetBuild amb w reg = (none, w, reg) := by
  simp [widgetBuild, hb]

theorem build_idempotent_witness :
    widgetBuild "s" ⟨some "a", "", some "a", some "a/", true, true⟩ ["a"] =
      (none, ⟨some "a", "", some "a", some "a/", true, true⟩, ["a"]) :=
  build_idempotent "s" ⟨some "a", "", some "a", some "a/", true, true⟩ ["a"] rfl

/-- Claim C5: the `GRUCell` and `LSTMCell` step functions compute exactly
the published recurrence equations.  GRU: `z = sigmoid(x Wz + h Uz [+ bz])`,
`r = sigmoid(x Wr + h Ur [+ br])`, candidate
`hc = activation(x Wh + (r * h) Uh [+ bh])`, new state
`h = z * h + (1 - z) * hc`.  LSTM: gates `i`, `f`, `o` as sigmoids of the
corresponding affine forms, candidate `cc = activation(x Wc + h Uc [+ bc])`,
cell state `c = f * cPrev + i * cc`, and output state
`h = o * activation(c)`, the activation applied to the candidate and to
the combined cell state each exactly once. -/
theorem gru_lstm_recurrences {m n : Nat} (sigmoid : ℚ → ℚ) :
    (∀ (p : GRUCellParams m n) (x : Vec m) (hPrev : Vec n),
      gruCellSetup sigmoid p x hPrev = fun j =>
        let b : Vec n → Fin n → ℚ := fun v i => if p.withBias then v i else 0
        let z : Fin n → ℚ := fun i =>
          sigmoid (matVec x p.wz i + matVec hPrev p.uz i + b p.bz i)
        let r : Fin n → ℚ := fun i =>
          sigmoid (matVec x p.wr i + matVec hPrev p.ur i + b p.br i)
        let hc : Fin n → ℚ := fun i =>
          applyAct p.activation
            (matVec x p.wh i + matVec (fun k => r k * hPrev k) p.uh i + b p.bh i)
        z j * hPrev j + (1 - z j) * hc j) ∧
    (∀ (p : LSTMCellParams m n) (x : Vec m) (cPrev hPrev : Vec n),
      (lstmCellSetup sigmoid p x cPrev hPrev).2 = fun j =>
        let b : Vec n → Fin n → ℚ := fun v i => if p.withBias then v i else 0
        let ig : Fin n → ℚ := fun i =>
          sigmoid (matVec x p.wi i + matVec hPrev p.ui i + b p.bi i)
        let fg : Fin n → ℚ := fun i =>
          sigmoid (matVec x p.wf i + matVec hPrev p.uf i + b p.bf i)
        let og : Fin n → ℚ := fun i =>
          sigmoid (matVec x p.wo i + matVec hPrev p.uo i + b p.bo i)
        let cc : Fin n → ℚ := fun i =>
          applyAct p.activation (matVec x p.wc i + matVec hPrev p.uc i + b p.bc i)
        let c : Fin n → ℚ := fun i => fg i * cPrev i + ig i * cc i
        og j * applyAct p.activation (c j)) := by
  constructor
  · intro p x hPrev
    funext j
    cases hw : p.withBias <;> cases ha : p.activation <;>
      (simp only [gruCellSetup, hw, ha, vAdd, vMul, vMap, oneMinus, applyActV, applyAct,
        matVec, add_zero, Bool.false_eq_true, Bool.true_eq_false, reduceIte])
  · intro p x cPrev hPrev
    funext j
    cases hw : p.withBias <;> cases ha : p.activation <;>
      (simp only [lstmCellSetup, hw, ha, vAdd, vMul, vMap, applyActV, applyAct,
        matVec, add_zero, Bool.false_eq_true, Bool.true_eq_false, reduceIte])

/-- Counterexample to claim C6: `Conv2D` constructed with the padding
string `"BOGUS"` — neither `"SAME"` nor `"VALID"` — does not raise; the
constructor succeeds, silently treating any non-`"SAME"` padding by the
VALID formula.  No padding validation exists in `Conv2D`, `GroupConv2D`
or `Pool2D`. -/
theorem padding_not_validated_cex :
    (conv2DInit [5, 5, 3] 4 3 3 1 1 "BOGUS").isOk = true := by decide

/-- Claim C6 (amended): `Pool2D` rejects at construction time any
`pool_type` whose lowercased form is outside `{"max", "avg"}`, failing
with a descriptive error; but the `padding` string is not validated by
`Conv2D`, `GroupConv2D` or `Pool2D` — construction succeeds for every
padding string (any value other than `"SAME"` merely selects the VALID
output-size formula). -/
theorem mode_validation :
    (∀ (is : List Int) (fh fw sh sw : Int) (pad pt : String),
      pyLower pt ∉ (["max", "avg"] : List String) →
      pool2DInit is fh fw sh sw pad pt =
        .error ("pool_type should be one of \x7b\"max\", \"avg\"\x7d, but got " ++ pyLower pt)) ∧
    (∀ (is : List Int) (fh fw sh sw : Int) (pad pt : String),
      3 ≤ is.length → sh ≠ 0 → sw ≠ 0 →
      pyLower pt ∈ (["max", "avg"] : List String) →
      (pool2DInit is fh fw sh sw pad pt).isOk = true) ∧
    (∀ (is : List Int) (oc fh fw sh sw : Int) (pad : String),
      is.length = 3 → sh ≠ 0 → sw ≠ 0 →
      (conv2DInit is oc fh fw sh sw pad).isOk = true) ∧
    (∀ (is : List Int) (oc ng fh fw sh sw : Int) (pad df : String),
      is.length = 3 → sh ≠ 0 → sw ≠ 0 →
      (groupConv2DInit is oc ng fh fw sh sw pad df).isOk = true) := by
  refine ⟨fun is fh fw sh sw pad pt h => ?_,
          fun is fh fw sh sw pad pt h1 h2 h3 h4 => ?_,
          fun is oc fh fw sh sw pad h1 h2 h3 => ?_,
          fun is oc ng fh fw sh sw pad df h1 h2 h3 => ?_⟩
  · simp [pool2DInit, h]
  · simp [pool2DInit, h1, h2, h3, h4, Except.isOk, Except.toBool]
  · simp [conv2DInit, h1, h2, h3, Except.isOk, Except.toBool]
  · simp [groupConv2DInit, h1, h2, h3, Except.isOk, Except.toBool]

theorem mode_validation_witness :
    pool2DInit [5, 5, 3] 3 3 2 2 "SAME" "mean" =
      .error "pool_type should be one of \x7b\"max\", \"avg\"\x7d, but got mean" ∧
    (pool2DInit [5, 5, 3] 3 3 2 2 "BOGUS" "max").isOk = true ∧
    (conv2DInit [5, 5, 3] 4 3 3 1 1 "NOTSAME").isOk = true ∧
    (groupConv2DInit [5, 5, 3] 4 2 3 3 1 1 "NOTSAME" "NHWC").isOk = true :=
  ⟨mode_validation.1 [5, 5, 3] 3 3 2 2 "SAME" "mean" (by decide),
   mode_validation.2.1 [5, 5, 3] 3 3 2 2 "BOGUS" "max" (by decide) (by decide) (by decide)
     (by decide),
   mode_validation.2.2.1 [5, 5, 3] 4 3 3 1 1 "NOTSAME" (by decide) (by decide) (by decide),
   mode_validation.2.2.2 [5, 5, 3] 4 2 3 3 1 1 "NOTSAME" "NHWC" (by decide) (by decide)
     (by decide)⟩

lemma pyStrip_sublist (s : String) : List.Sublist (pyStrip s).toList s.toList := by
  have h1 : List.Sublist (s.toList.dropWhile isPySpace) s.toList :=
    List.dropWhile_sublist isPySpace
  have h2 : List.Sublist ((s.toList.dropWhile isPySpace).reverse.dropWhile isPySpace)
      (s.toList.dropWhile isPySpace).reverse :=
    List.dropWhile_sublist isPySpace
  have h3 := h2.reverse
  rw [List.reverse_reverse] at h3
  exact h3.trans h1

lemma pyStrip_eq_of_length (s : String) (h : (pyStrip s).length = s.length) :
    pyStrip s = s := by
  have hsub := pyStrip_sublist s
  have hlen : (pyStrip s).toList.length = s.toList.length := h
  have heq : (pyStrip s).toList = s.toList := hsub.eq_of_length hlen
  have : String.mk (pyStrip s).toList = String.mk s.toList := by rw [heq]
  simpa using this

/-- Claim C7: the `Widget` constructor rejects malformed names; for every
non-`None` name argument, construction raises if and only if the name is
not a string, is the empty string, or differs from its
whitespace-stripped form; every other string name is accepted. -/
theorem widget_name_validation (a : PyArg) (ha : a ≠ PyArg.noneArg) :
    (widgetNameCheck a).isSome = true ↔
      (a = PyArg.otherArg ∨ ∃ s, a = PyArg.strArg s ∧ (s = "" ∨ pyStrip s ≠ s)) := by
  cases a with
  | noneArg => exact absurd rfl ha
  | otherArg => simp [widgetNameCheck]
  | strArg s =>
    have key : ((pyStrip s).length ≠ s.length ∨ s = "") ↔ (s = "" ∨ pyStrip s ≠ s) := by
      constructor
      · rintro (h | h)
        · exact Or.inr (fun he => h (by rw [he]))
        · exact Or.inl h
      · rintro (h | h)
        · exact Or.inr h
        · exact Or.inl (fun hl => h (pyStrip_eq_of_length s hl))
    by_cases hc : (pyStrip s).length ≠ s.length ∨ s = ""
    · simp only [widgetNameCheck, if_pos hc, Option.isSome_some, true_iff]
      exact Or.inr ⟨s, rfl, key.mp hc⟩
    · simp only [widgetNameCheck, if_neg hc, Option.isSome_none, Bool.false_eq_true, false_iff]
      rintro (h | ⟨s', hs', hbad⟩)
      · exact PyArg.noConfusion h
      · cases hs'
        exact hc (key.mpr hbad)

theorem widget_name_validation_witness :
    (widgetNameCheck (PyArg.strArg "conv")).isSome = true ↔
      (PyArg.strArg "conv" = PyArg.otherArg ∨
        ∃ s, PyArg.strArg "conv" = PyArg.strArg s ∧ (s = "" ∨ pyStrip s ≠ s)) :=
  widget_name_validation (PyArg.strArg "conv") (by decide)

/-- Counterexample to claim C8: a built `Gate` with a single weight matrix,
given two inputs, hits the argument-count validation in `Gate._setup` and
raises — a post-construction operation whose error branch is reachable. -/
theorem post_construction_validation_cex :
    (gateSetup [[[1]]] [0] [[1], [2]] id).isOk = false := by decide

/-- Claim C8 (amended): validation is not limited to construction time;
several post-construction operations have reachable error branches:
`Gate._setup` raises when the number of inputs differs from the number of
weight matrices, `GRUCell.setup_recursive` and `LSTMCell.setup_recursive`
raise when `init_state` and `init_input` are both `None`, and
`Widget.setup` raises when the widget has not been built. -/
theorem post_construction_validation :
    (∀ (wList : List (List (List ℚ))) (b : List ℚ) (xList : List (List ℚ)) (sig : ℚ → ℚ),
      xList.length ≠ wList.length → gateSetup wList b xList sig = .error "ValueError") ∧
    (∀ (sSize iSize : Nat),
      gruSetupRecursive sSize iSize none none =
        .error "init_state and init_input should not be None at the same time.") ∧
    (∀ (sSize : Nat) (ics : Option (List ℚ)),
      lstmSetupRecursive sSize ics none none =
        .error "init_state and init_input should not be None at the same time.") ∧
    (∀ w : WidgetState, w.built = false →
      widgetSetup w = .error "This widget has not been built. Please build first.") := by
  refine ⟨fun wList b xList sig h => ?_, fun sSize iSize => rfl, fun sSize ics => rfl,
          fun w h => ?_⟩
  · simp [gateSetup, h]
  · simp [widgetSetup, h]

theorem post_construction_validation_witness :
    gateSetup [[[1]]] [0] [[1], [2]] (fun q => q) = .error "ValueError" ∧
    gruSetupRecursive 4 3 none none =
      .error "init_state and init_input should not be None at the same time." ∧
    lstmSetupRecursive 4 none none none =
      .error "init_state and init_input should not be None at the same time." ∧
    widgetSetup ⟨some "g", "", none, none, false, false⟩ =
      .error "This widget has not been built. Please build first." :=
  ⟨post_construction_validation.1 [[[1]]] [0] [[1], [2]] (fun q => q) (by decide),
   post_construction_validation.2.1 4 3,
   post_construction_validation.2.2.1 4 none,
   post_construction_validation.2.2.2 ⟨some "g", "", none, none, false, false⟩ rfl⟩

lemma setParametersGo_spec (varNames : List String) (strict : Bool)
    (pd : List (String × ℚ)) :
    ∀ acc : List (String × ℚ),
      setParametersGo varNames strict pd acc =
        match pd.dropWhile (fun p => decide (p.1 ∈ varNames)) with
        | [] => (none, acc.reverse ++ pd)
        | (k, _) :: _ =>
          (some (if strict then k ++ " is not in this model." else "KeyError"),
           acc.reverse ++ pd.takeWhile (fun p => decide (p.1 ∈ varNames))) := by
  induction pd with
  | nil => intro acc; simp [setParametersGo]
  | cons hd rest ih =>
    intro acc
    obtain ⟨n, v⟩ := hd
    by_cases hm : n ∈ varNames
    · rw [setParametersGo, if_pos hm, ih ((n, v) :: acc)]
      cases hdw : rest.dropWhile (fun p => decide (p.1 ∈ varNames)) with
      | nil => simp [List.dropWhile_cons, hm, hdw]
      | cons q qs =>
        obtain ⟨k, v2⟩ := q
        simp [List.dropWhile_cons, List.takeWhile_cons, hm, hdw]
    · cases strict <;>
        simp [setParametersGo, hm, List.dropWhile_cons, List.takeWhile_cons]

/-- Claim C9: for every widget and every `param_dict` containing a key
that is not the name of one of the widget's trainable variables,
`Widget.set_parameters` fails regardless of the `strict` flag (with
`strict=True` via the descriptive `ValueError`, with `strict=False` via
the `var_dict[name]` lookup), and the assignments performed are exactly
those preceding the first offending key. -/
theorem setParameters_unknown_key (varNames : List String) (pd : List (String × ℚ))
    (strict : Bool) (hk : ∃ p ∈ pd, p.1 ∉ varNames) :
    (setParameters varNames pd strict).1 ≠ none ∧
    (setParameters varNames pd strict).2 =
      pd.takeWhile (fun p => decide (p.1 ∈ varNames)) := by
  have hne : pd.dropWhile (fun p => decide (p.1 ∈ varNames)) ≠ [] := by
    intro hnil
    rw [List.dropWhile_eq_nil_iff] at hnil
    obtain ⟨p, hp, hnp⟩ := hk
    exact hnp (by simpa using hnil p hp)
  cases hdw : pd.dropWhile (fun p => decide (p.1 ∈ varNames)) with
  | nil => exact absurd hdw hne
  | cons q qs =>
    obtain ⟨k, v⟩ := q
    unfold setParameters
    rw [setParametersGo_spec varNames strict pd [], hdw]
    simp

theorem setParameters_unknown_key_witness :
    (setParameters ["w"] [("w", 1), ("q", 2), ("z", 3)] true).1 ≠ none ∧
    (setParameters ["w"] [("w", 1), ("q", 2), ("z", 3)] true).2 =
      [("w", 1), ("q", 2), ("z", 3)].takeWhile (fun p => decide (p.1 ∈ ["w"])) :=
  setParameters_unknown_key ["w"] [("w", 1), ("q", 2), ("z", 3)] true
    ⟨("q", 2), by decide, by decide⟩

/-- Claim C10: for every widget constructed with `name=None`,
`get_variables` and `get_trainable_variables` both return the empty list,
regardless of what variables exist in the enclosing graph. -/
theorem unnamed_widget_no_variables (w : WidgetState) (globalVars trainableVars : List String)
    (hn : w.name = none) :
    getVariables w globalVars = [] ∧ getTrainableVariables w trainableVars = [] := by
  simp [getVariables, getTrainableVariables, hn]

theorem unnamed_widget_no_variables_witness :
    getVariables ⟨none, "", none, none, false, false⟩ ["m/w:0", "m/b:0"] = [] ∧
    getTrainableVariables ⟨none, "", none, none, false, false⟩ ["m/w:0"] = [] :=
  unnamed_widget_no_variables ⟨none, "", none, none, false, false⟩ ["m/w:0", "m/b:0"]
    ["m/w:0"] rfl
